import Mathlib

/-!
Shallow embedding of the datadiff-terminal comparison engine and its
terminal front-end, for checking the specification against the code.

Source layout:
* `src/libdtf/src/diff_types.rs` — diff record types, `ValueType`,
  `ArrayDiffDesc`, `WorkingFile`, `WorkingContext`, `ComparisionResult`.
* `src/libdtf/src/compare_field.rs` — the 36-arm type-pair dispatcher
  `compare_field`.
* `src/src/lib.rs` — the terminal layer: `Config`, `SavedConfig`,
  `SavedContext`, `parse_args`, `collect_data`, `read_from_file`,
  `write_to_file`, table rendering.

The bodies of the libdtf handlers and finders (`compare_primitives`,
`compare_arrays`, `compare_objects`, `handle_different_types`,
`handle_one_element_null_primitives`, `handle_one_element_null_arrays`,
`handle_one_element_null_objects`, `find_key_diffs`, `find_type_diffs`,
`find_value_diffs`, `find_array_diffs`) are not part of the sources; the
definitions below that stand for them are modelled from the specification
and are marked as such in their doc comments.
-/

namespace Dtf

/-- Embeds the enum `ValueType` of `src/libdtf/src/diff_types.rs`: the six
kinds a parsed document node can have. -/
inductive ValueType where
  | null
  | boolean
  | number
  | string
  | array
  | object
deriving DecidableEq

/-- Embeds the `Display` implementation for `ValueType` in
`src/libdtf/src/diff_types.rs`: the textual kind names. -/
def ValueType.toStr : ValueType → String
  | .null => "null"
  | .boolean => "bool"
  | .number => "number"
  | .string => "string"
  | .array => "array"
  | .object => "object"

/-- Embeds the enum `ArrayDiffDesc` of `src/libdtf/src/diff_types.rs`. -/
inductive ArrayDiffDesc where
  | AHas
  | AMisses
  | BHas
  | BMisses
deriving DecidableEq

/-- Embeds the struct `WorkingFile` of `src/libdtf/src/diff_types.rs`. -/
structure WorkingFile where
  name : String
deriving DecidableEq

/-- Embeds the struct `WorkingContext` exactly as it is declared in
`src/libdtf/src/diff_types.rs`: two `WorkingFile` fields and nothing else.
Note that every caller in the repository (`create_working_context` in
`src/src/lib.rs` and `create_test_working_context` in
`src/benches/benches.rs`) constructs a `WorkingContext` with a third
`Config` argument, which this declaration cannot accept. -/
structure SrcDeclaredWorkingContext where
  file_a : WorkingFile
  file_b : WorkingFile
deriving DecidableEq

/-- Modelled from the spec: the libdtf `Config` (`array_same_order` plus
nothing the engine reads elsewhere). The declaration is missing from
`src/libdtf/src/diff_types.rs`, but `src/src/lib.rs` constructs it via
`LibConfig::new(config.array_same_order)` and the spec lists
`array_same_order` as its comparison-relevant field. -/
structure Config where
  array_same_order : Bool
deriving DecidableEq

/-- Modelled from the spec: the `WorkingContext` the comparison engine
actually threads through the recursion, `\x7b file_a, file_b, config \x7d`.
The declaration under `src/libdtf/src/diff_types.rs` omits the `config`
field, but all of its callers construct it with one
(`WorkingContext::new(file_a, file_b, config)`), so the engine is embedded
against the three-field form the spec and the callers agree on. -/
structure WorkingContext where
  file_a : WorkingFile
  file_b : WorkingFile
  config : Config
deriving DecidableEq

/-- Embeds the struct `KeyDiff` of `src/libdtf/src/diff_types.rs`. -/
structure KeyDiff where
  key : String
  has : String
  misses : String
deriving DecidableEq

/-- Embeds the struct `ValueDiff` of `src/libdtf/src/diff_types.rs`. -/
structure ValueDiff where
  key : String
  value1 : String
  value2 : String
deriving DecidableEq

/-- Embeds the struct `ArrayDiff` of `src/libdtf/src/diff_types.rs`. -/
structure ArrayDiff where
  key : String
  descriptor : ArrayDiffDesc
  value : String
deriving DecidableEq

/-- Embeds the struct `TypeDiff` of `src/libdtf/src/diff_types.rs`. -/
structure TypeDiff where
  key : String
  type1 : String
  type2 : String
deriving DecidableEq

/-- Embeds the type alias `ComparisionResult` of
`src/libdtf/src/diff_types.rs` (spelling kept from the source): the
four-way classified batch of diffs for one field. -/
abbrev ComparisionResult : Type :=
  List KeyDiff × List TypeDiff × List ValueDiff × List ArrayDiff

/-- Embeds `serde_json::Value`, the parsed document node the engine
compares. Numbers are modelled as integers: the numeric payload is only
ever tested for equality and serialized, and floating-point payloads are
outside the embedding. -/
inductive Value where
  | null
  | bool (b : Bool)
  | number (n : Int)
  | string (s : String)
  | array (elems : List Value)
  | object (entries : List (String × Value))

/-- Kind of a `Value`, as the serde-side type classification used by the
dispatch (the `ValueType` a node maps to). -/
def Value.kind : Value → ValueType
  | .null => .null
  | .bool _ => .boolean
  | .number _ => .number
  | .string _ => .string
  | .array _ => .array
  | .object _ => .object

/-- JSON string escaping for one character, for the canonical serializer
below (quote and backslash are escaped; enough for the embedded inputs). -/
def escapeJsonChar (c : Char) : String :=
  if c = '"' then "\\\"" else if c = '\\' then "\\\\" else String.singleton c

/-- JSON string escaping, character by character. -/
def escapeJson (s : String) : String :=
  String.join (s.toList.map escapeJsonChar)

/-- Canonical serialization of a string payload (`serde_json` string
form). -/
def jsonOfString (s : String) : String :=
  "\"" ++ escapeJson s ++ "\""

/-- Canonical serialization of a number payload. -/
def jsonOfInt (n : Int) : String :=
  toString n

/-- Canonical serialization of a boolean payload. -/
def jsonOfBool (b : Bool) : String :=
  if b then "true" else "false"

mutual

/-- Modelled from the spec: the canonical serialization
(`serde_json`'s `to_string`, the `json!(v).to_string()` form) used for
cross-kind textual comparison and array-diff display; defined once and
reused consistently, as the spec requires. -/
def Value.toJson : Value → String
  | .null => "null"
  | .bool b => jsonOfBool b
  | .number n => jsonOfInt n
  | .string s => jsonOfString s
  | .array xs => "[" ++ String.intercalate "," (jsonListParts xs) ++ "]"
  | .object kvs => "\x7b" ++ String.intercalate "," (jsonObjParts kvs) ++ "\x7d"

/-- Serialization of the elements of a JSON array, in order. -/
def jsonListParts : List Value → List String
  | [] => []
  | v :: rest => v.toJson :: jsonListParts rest

/-- Serialization of the entries of a JSON object, in order. -/
def jsonObjParts : List (String × Value) → List String
  | [] => []
  | (k, v) :: rest => (jsonOfString k ++ ":" ++ v.toJson) :: jsonObjParts rest

end

/-- Object entries of a node: the entry list of an `Object`, and the
empty list for every other kind (how the null-pair handler treats the
null side as an empty object). -/
def Value.objEntries : Value → List (String × Value)
  | .object kvs => kvs
  | _ => []

/-- Modelled from the spec: the child path of a field,
`parent + "." + key`, where the root path (empty string) yields just the
key. The path-building code lives in the libdtf comparators, which are
not under `src/`. -/
def childKey (parent k : String) : String :=
  if parent.isEmpty then k else parent ++ "." ++ k

/-- Modelled from the spec: the indexed child path used by the ordered
array comparator, `parent + "[i]"`. -/
def indexKey (parent : String) (i : Nat) : String :=
  parent ++ "[" ++ toString i ++ "]"

/-- Modelled from the spec: the primitive comparator `compare_primitives`
of libdtf (not under `src/`): two same-typed scalar payloads, compared by
value equality; empty output when equal, one `ValueDiff` of the two
canonical serializations otherwise. The Rust function is generic over the
payload type with its `Display`; here the canonical serializer of the
payload type is the explicit first argument. -/
def compare_primitives {α : Type} [DecidableEq α] (ser : α → String)
    (key : String) (a b : α) : List ValueDiff :=
  if a = b then [] else [⟨key, ser a, ser b⟩]

/-- Modelled from the spec: the type-mismatch handler
`handle_different_types` of libdtf (not under `src/`): exactly one
`TypeDiff` carrying both kind names; the underlying data is not compared
further. -/
def handle_different_types (key : String) (a b : Value) : List TypeDiff :=
  [⟨key, a.kind.toStr, b.kind.toStr⟩]

/-- Modelled from the spec: the null-vs-primitive handler
`handle_one_element_null_primitives` of libdtf (not under `src/`): one
`ValueDiff` whose two sides are the canonical serializations of the two
values — the canonical text "null" for the null side, the canonical
serialization of the concrete value for the other. -/
def handle_one_element_null_primitives (key : String) (a b : Value) :
    List ValueDiff :=
  [⟨key, a.toJson, b.toJson⟩]

/-- Modelled from the spec: the null-vs-array handler
`handle_one_element_null_arrays` of libdtf (not under `src/`): the null
side is treated as an empty array, and every element of the non-null
array is reported as present only on its own side — an AHas/BMisses pair
per element when A holds the array, a BHas/AMisses pair per element when
B holds it. -/
def handle_one_element_null_arrays (key : String) (a b : Value) :
    List ArrayDiff :=
  match a, b with
  | .array xs, _ =>
    xs.flatMap fun v => [⟨key, .AHas, v.toJson⟩, ⟨key, .BMisses, v.toJson⟩]
  | _, .array ys =>
    ys.flatMap fun v => [⟨key, .BHas, v.toJson⟩, ⟨key, .AMisses, v.toJson⟩]
  | _, _ => []

/-- Modelled from the spec: the unordered (set-based) array comparison of
§4.5. Each array is reduced to the canonical serializations of its
elements; an element serialization present in A but absent from B emits
an AHas/BMisses pair, and symmetrically a BHas/AMisses pair for B-only
elements. Elements present on both sides emit nothing. (The spec leaves
duplicate multiplicity open; this model keeps each occurrence as
encountered.) -/
def array_diffs_unordered (key : String) (xs ys : List Value) :
    List ArrayDiff :=
  let xSer := xs.map Value.toJson
  let ySer := ys.map Value.toJson
  (xSer.filter fun s => !(ySer.contains s)).flatMap
      (fun s => [⟨key, .AHas, s⟩, ⟨key, .BMisses, s⟩])
    ++ (ySer.filter fun s => !(xSer.contains s)).flatMap
      (fun s => [⟨key, .BHas, s⟩, ⟨key, .AMisses, s⟩])

/-- Componentwise concatenation of two four-way diff batches. -/
def mergeResult (r1 r2 : ComparisionResult) : ComparisionResult :=
  (r1.1 ++ r2.1, r1.2.1 ++ r2.2.1, r1.2.2.1 ++ r2.2.2.1, r1.2.2.2 ++ r2.2.2.2)

/-- Modelled from the spec: the key-only diffs for the keys present in B
but not in A (§4.4), emitted after A's entries are walked. -/
def key_diffs_only_in_b (key : String) (aE bE : List (String × Value))
    (ctx : WorkingContext) : List KeyDiff :=
  (bE.filter fun kv => !(aE.any fun av => av.1 == kv.1)).map
    fun kv => ⟨childKey key kv.1, ctx.file_b.name, ctx.file_a.name⟩

/-- Helper: lists are never of size zero (under any `SizeOf` on the
elements). Used for termination of the array walks. -/
theorem sizeOf_list_pos {α : Type} [SizeOf α] (l : List α) : 0 < sizeOf l := by
  cases l <;> simp <;> omega

/-- Helper: a value found by `List.lookup` is a component of the list, so
its size is below the size of the list. Used for termination of the
object walk. -/
theorem sizeOf_lookup_lt {l : List (String × Value)} {k : String}
    {w : Value} (h : l.lookup k = some w) : sizeOf w < sizeOf l := by
  induction l with
  | nil => simp [List.lookup] at h
  | cons hd tl ih =>
    rcases hd with ⟨a, b⟩
    rw [List.lookup] at h
    by_cases hk : k == a
    · simp [hk] at h
      subst h
      simp
      omega
    · simp [hk] at h
      have := ih h
      simp
      omega

/-- Helper: the object-entry list of a value is no larger than the value
itself. Used for termination of the null-vs-object handler. -/
theorem sizeOf_objEntries_le (v : Value) : sizeOf v.objEntries ≤ sizeOf v := by
  cases v <;> simp [Value.objEntries] <;> omega

mutual

/-- Embeds `compare_field` of `src/libdtf/src/compare_field.rs`, arm for
arm: the 36-case dispatch on the ordered pair of `Value` kinds. The
`json!(payload)` re-wrappings of the source rebuild the original operand
values, so each arm passes the operands themselves to its handler. -/
def compare_field (key : String) (a_value b_value : Value)
    (working_context : WorkingContext) : ComparisionResult :=
  match a_value, b_value with
  | .null, .null => ([], [], [], [])
  | .string a, .string b =>
    ([], [], compare_primitives jsonOfString key a b, [])
  | .number a, .number b =>
    ([], [], compare_primitives jsonOfInt key a b, [])
  | .bool a, .bool b =>
    ([], [], compare_primitives jsonOfBool key a b, [])
  | .array a, .array b => compare_arrays key a b working_context
  | .object a, .object b => compare_objects key a b working_context
  | .null, .string b =>
    ([], [], handle_one_element_null_primitives key .null (.string b), [])
  | .null, .number b =>
    ([], [], handle_one_element_null_primitives key .null (.number b), [])
  | .null, .bool b =>
    ([], [], handle_one_element_null_primitives key .null (.bool b), [])
  | .string a, .null =>
    ([], [], handle_one_element_null_primitives key (.string a) .null, [])
  | .number a, .null =>
    ([], [], handle_one_element_null_primitives key (.number a) .null, [])
  | .bool a, .null =>
    ([], [], handle_one_element_null_primitives key (.bool a) .null, [])
  | .null, .array b =>
    ([], [], [], handle_one_element_null_arrays key .null (.array b))
  | .null, .object b =>
    handle_one_element_null_objects key .null (.object b) working_context
  | .array a, .null =>
    ([], [], [], handle_one_element_null_arrays key (.array a) .null)
  | .object a, .null =>
    handle_one_element_null_objects key (.object a) .null working_context
  | .string a, .number b =>
    ([], handle_different_types key (.string a) (.number b), [], [])
  | .string a, .bool b =>
    ([], handle_different_types key (.string a) (.bool b), [], [])
  | .string a, .array b =>
    ([], handle_different_types key (.string a) (.array b), [], [])
  | .string a, .object b =>
    ([], handle_different_types key (.string a) (.object b), [], [])
  | .number a, .string b =>
    ([], handle_different_types key (.number a) (.string b), [], [])
  | .number a, .bool b =>
    ([], handle_different_types key (.number a) (.bool b), [], [])
  | .number a, .array b =>
    ([], handle_different_types key (.number a) (.array b), [], [])
  | .number a, .object b =>
    ([], handle_different_types key (.number a) (.object b), [], [])
  | .bool a, .string b =>
    ([], handle_different_types key (.bool a) (.string b), [], [])
  | .bool a, .number b =>
    ([], handle_different_types key (.bool a) (.number b), [], [])
  | .bool a, .array b =>
    ([], handle_different_types key (.bool a) (.array b), [], [])
  | .bool a, .object b =>
    ([], handle_different_types key (.bool a) (.object b), [], [])
  | .array a, .string b =>
    ([], handle_different_types key (.array a) (.string b), [], [])
  | .array a, .bool b =>
    ([], handle_different_types key (.array a) (.bool b), [], [])
  | .array a, .number b =>
    ([], handle_different_types key (.array a) (.number b), [], [])
  | .array a, .object b =>
    ([], handle_different_types key (.array a) (.object b), [], [])
  | .object a, .string b =>
    ([], handle_different_types key (.object a) (.string b), [], [])
  | .object a, .bool b =>
    ([], handle_different_types key (.object a) (.bool b), [], [])
  | .object a, .array b =>
    ([], handle_different_types key (.object a) (.array b), [], [])
  | .object a, .number b =>
    ([], handle_different_types key (.object a) (.number b), [], [])
termination_by sizeOf a_value + sizeOf b_value + 3

/-- Modelled from the spec: the object comparator of §4.4. A's entries
are walked in order (shared keys recurse through the dispatcher, A-only
keys emit a `KeyDiff` with A as the holder), then the B-only keys emit
their `KeyDiff`s with B as the holder. -/
def compare_objects (key : String) (a b : List (String × Value))
    (ctx : WorkingContext) : ComparisionResult :=
  mergeResult (walk_a_entries key a b ctx)
    (key_diffs_only_in_b key a b ctx, [], [], [])
termination_by sizeOf a + sizeOf b + 1

/-- Modelled from the spec: the walk over A's entries inside the object
comparator. A key also present in B recurses through the field
dispatcher with the child path; an A-only key emits
`KeyDiff \x7b has = file_a, misses = file_b \x7d`. -/
def walk_a_entries (key : String) (aE bE : List (String × Value))
    (ctx : WorkingContext) : ComparisionResult :=
  match aE with
  | [] => ([], [], [], [])
  | (k, v) :: rest =>
    let head_result :=
      match h : bE.lookup k with
      | some w => compare_field (childKey key k) v w ctx
      | none =>
        ([⟨childKey key k, ctx.file_a.name, ctx.file_b.name⟩], [], [], [])
    mergeResult head_result (walk_a_entries key rest bE ctx)
termination_by sizeOf aE + sizeOf bE
decreasing_by
  all_goals simp_wf
  all_goals try (have h1 := sizeOf_lookup_lt h; have h2 := sizeOf_list_pos rest)
  all_goals omega

/-- Modelled from the spec: the null-vs-object handler
`handle_one_element_null_objects` of libdtf (not under `src/`): the null
side is treated as an empty object and the pair is delegated to the
object comparator, so every key of the non-null side surfaces as a
`KeyDiff`. -/
def handle_one_element_null_objects (key : String) (a b : Value)
    (ctx : WorkingContext) : ComparisionResult :=
  compare_objects key a.objEntries b.objEntries ctx
termination_by sizeOf a + sizeOf b + 2
decreasing_by
  have ha := sizeOf_objEntries_le a
  have hb := sizeOf_objEntries_le b
  omega

/-- Modelled from the spec: the array comparator of §4.5, selecting the
ordered (index-pairwise) or unordered (set-based) policy by
`Config.array_same_order`. -/
def compare_arrays (key : String) (a b : List Value)
    (ctx : WorkingContext) : ComparisionResult :=
  if ctx.config.array_same_order then
    compare_arrays_ordered key 0 a b ctx
  else
    ([], [], [], array_diffs_unordered key a b)
termination_by sizeOf a + sizeOf b + 3

/-- Modelled from the spec: the ordered-mode pairwise walk of §4.5.
Indices held by both arrays recurse through the field dispatcher with the
indexed path; an index held by only one side is compared against an
absent counterpart following the null-pair convention. -/
def compare_arrays_ordered (key : String) (i : Nat) (xs ys : List Value)
    (ctx : WorkingContext) : ComparisionResult :=
  match xs, ys with
  | [], [] => ([], [], [], [])
  | x :: xr, y :: yr =>
    mergeResult (compare_field (indexKey key i) x y ctx)
      (compare_arrays_ordered key (i + 1) xr yr ctx)
  | x :: xr, [] =>
    mergeResult (compare_field (indexKey key i) x .null ctx)
      (compare_arrays_ordered key (i + 1) xr [] ctx)
  | [], y :: yr =>
    mergeResult (compare_field (indexKey key i) .null y ctx)
      (compare_arrays_ordered key (i + 1) [] yr ctx)
termination_by sizeOf xs + sizeOf ys + 2
decreasing_by
  all_goals simp_wf
  all_goals try have h1 := sizeOf_list_pos xr
  all_goals try have h2 := sizeOf_list_pos yr
  all_goals omega

end

/-- Handlers a kind-pair can be routed to by the dispatch table of
`compare_field` (spec §4.6): one per table row, plus the same-kind
null pair, which the source resolves inline to an empty batch. -/
inductive Route where
  | bothNull
  | samePrimitive
  | sameArray
  | sameObject
  | nullPrimitive
  | nullArray
  | nullObject
  | typeMismatch
deriving DecidableEq

/-- Routing table of the dispatcher on the ordered pair of `Value` kinds,
written out for all 36 ordered kind-pairs exactly as the 36 arms of the
match in `src/libdtf/src/compare_field.rs` are. -/
def routeOf : ValueType → ValueType → Route
  | .null, .null => .bothNull
  | .string, .string => .samePrimitive
  | .number, .number => .samePrimitive
  | .boolean, .boolean => .samePrimitive
  | .array, .array => .sameArray
  | .object, .object => .sameObject
  | .null, .string => .nullPrimitive
  | .null, .number => .nullPrimitive
  | .null, .boolean => .nullPrimitive
  | .string, .null => .nullPrimitive
  | .number, .null => .nullPrimitive
  | .boolean, .null => .nullPrimitive
  | .null, .array => .nullArray
  | .array, .null => .nullArray
  | .null, .object => .nullObject
  | .object, .null => .nullObject
  | .string, .number => .typeMismatch
  | .string, .boolean => .typeMismatch
  | .string, .array => .typeMismatch
  | .string, .object => .typeMismatch
  | .number, .string => .typeMismatch
  | .number, .boolean => .typeMismatch
  | .number, .array => .typeMismatch
  | .number, .object => .typeMismatch
  | .boolean, .string => .typeMismatch
  | .boolean, .number => .typeMismatch
  | .boolean, .array => .typeMismatch
  | .boolean, .object => .typeMismatch
  | .array, .string => .typeMismatch
  | .array, .number => .typeMismatch
  | .array, .boolean => .typeMismatch
  | .array, .object => .typeMismatch
  | .object, .string => .typeMismatch
  | .object, .number => .typeMismatch
  | .object, .boolean => .typeMismatch
  | .object, .array => .typeMismatch

/-- Value-category output of the same-primitive-kind comparison, payload
by payload (the three `compare_primitives` arms of the dispatcher). -/
def primitive_value_diffs (key : String) (a b : Value) : List ValueDiff :=
  match a, b with
  | .string x, .string y => compare_primitives jsonOfString key x y
  | .number x, .number y => compare_primitives jsonOfInt key x y
  | .bool x, .bool y => compare_primitives jsonOfBool key x y
  | _, _ => []

/-- Application of one routed handler to a field, as the spec table of
§4.6 describes each row: the four-way result each handler contributes and
the category its diffs land in. -/
def dispatchRoute (r : Route) (key : String) (a b : Value)
    (ctx : WorkingContext) : ComparisionResult :=
  match r with
  | .bothNull => ([], [], [], [])
  | .samePrimitive => ([], [], primitive_value_diffs key a b, [])
  | .sameArray =>
    match a, b with
    | .array xs, .array ys => compare_arrays key xs ys ctx
    | _, _ => ([], [], [], [])
  | .sameObject =>
    match a, b with
    | .object xs, .object ys => compare_objects key xs ys ctx
    | _, _ => ([], [], [], [])
  | .nullPrimitive => ([], [], handle_one_element_null_primitives key a b, [])
  | .nullArray => ([], [], [], handle_one_element_null_arrays key a b)
  | .nullObject => handle_one_element_null_objects key a b ctx
  | .typeMismatch => ([], handle_different_types key a b, [], [])

/-- Modelled from the spec: the four finder entry points of §4.7
(`find_key_diffs`, `find_type_diffs`, `find_value_diffs`,
`find_array_diffs` of libdtf, not under `src/`). Each walks the two root
objects through the field dispatcher and keeps one category, discarding
the other three — extensionally, the projection of the object
comparator's combined batch. -/
def find_key_diffs (key : String) (a b : List (String × Value))
    (ctx : WorkingContext) : List KeyDiff :=
  (compare_objects key a b ctx).1

/-- Modelled from the spec: the type-category finder of §4.7; see
`find_key_diffs`. -/
def find_type_diffs (key : String) (a b : List (String × Value))
    (ctx : WorkingContext) : List TypeDiff :=
  (compare_objects key a b ctx).2.1

/-- Modelled from the spec: the value-category finder of §4.7; see
`find_key_diffs`. -/
def find_value_diffs (key : String) (a b : List (String × Value))
    (ctx : WorkingContext) : List ValueDiff :=
  (compare_objects key a b ctx).2.2.1

/-- Modelled from the spec: the array-category finder of §4.7; see
`find_key_diffs`. -/
def find_array_diffs (key : String) (a b : List (String × Value))
    (ctx : WorkingContext) : List ArrayDiff :=
  (compare_objects key a b ctx).2.2.2

namespace Terminal

/-- Embeds the struct `Config` of `src/src/lib.rs` (the terminal layer's
runtime configuration), field for field and in declaration order. -/
structure Config where
  check_for_key_diffs : Bool
  check_for_type_diffs : Bool
  check_for_value_diffs : Bool
  check_for_array_diffs : Bool
  read_from_file : String
  write_to_file : Option String
  file_a : Option String
  file_b : Option String
  array_same_order : Bool
deriving DecidableEq

/-- Embeds the struct `WorkingContext` of `src/src/lib.rs`: the libdtf
working context plus the terminal `Config`. -/
structure WorkingContext where
  lib_working_context : Dtf.WorkingContext
  config : Config

/-- Embeds the struct `SavedConfig` of `src/src/lib.rs` (identical to the
one in `src/src/dtfterminal_types.rs`): the saved copy of a run's
configuration inside a persisted session. -/
structure SavedConfig where
  check_for_key_diffs : Bool
  check_for_type_diffs : Bool
  check_for_value_diffs : Bool
  check_for_array_diffs : Bool
  file_a : String
  file_b : String
  array_same_order : Bool
deriving DecidableEq

/-- Embeds the struct `SavedContext` of `src/src/lib.rs` (identical to
the one in `src/src/dtfterminal_types.rs`): the persisted session — the
four diff sequences plus the saved configuration. -/
structure SavedContext where
  key_diff : List KeyDiff
  type_diff : List TypeDiff
  value_diff : List ValueDiff
  array_diff : List ArrayDiff
  config : SavedConfig
deriving DecidableEq

/-- Embeds `collect_data` of `src/src/lib.rs`: each category finder is
invoked through `bool::then`, so a category is computed exactly when its
check flag is enabled. The Rust `flag.then(closure)` form is embedded as
`if flag then some _ else none`. -/
def collect_data (data1 data2 : List (String × Value))
    (working_context : WorkingContext) :
    Option (List KeyDiff) × Option (List TypeDiff) ×
      Option (List ValueDiff) × Option (List ArrayDiff) :=
  let key_diff :=
    if working_context.config.check_for_key_diffs then
      some (find_key_diffs "" data1 data2 working_context.lib_working_context)
    else none
  let type_diff :=
    if working_context.config.check_for_type_diffs then
      some (find_type_diffs "" data1 data2 working_context.lib_working_context)
    else none
  let value_diff :=
    if working_context.config.check_for_value_diffs then
      some (find_value_diffs "" data1 data2 working_context.lib_working_context)
    else none
  let array_diff :=
    if working_context.config.check_for_array_diffs then
      some (find_array_diffs "" data1 data2 working_context.lib_working_context)
    else none
  (key_diff, type_diff, value_diff, array_diff)

/-- Outcome of the persisting step modelled below: what was serialized
and to which path, or the error return, or a panic (an `unwrap` of a
missing value aborting the process). -/
inductive WriteOutcome where
  | written (path : String) (saved : SavedContext)
  | failed
  | panicked
deriving DecidableEq

/-- Embeds the payload logic of `write_to_file` of `src/src/lib.rs` (the
actual file write is I/O and is represented by the `written` outcome
carrying what `serde_json::to_writer` is given): missing diff sequences
are replaced by empty ones, and when the configuration names a target
file, a `SavedContext` of the four sequences plus a `SavedConfig` copy of
the run configuration is serialized; without a target the function
returns `Err(())`. The `unwrap()` calls on `config.file_a` / `config.file_b`
abort the process when those are absent. -/
def write_to_file (key_diff_option : Option (List KeyDiff))
    (type_diff_option : Option (List TypeDiff))
    (value_diff_option : Option (List ValueDiff))
    (array_diff_option : Option (List ArrayDiff))
    (working_context : WorkingContext) : WriteOutcome :=
  let key_diff := key_diff_option.getD []
  let type_diff := type_diff_option.getD []
  let value_diff := value_diff_option.getD []
  let array_diff := array_diff_option.getD []
  match working_context.config.write_to_file with
  | some path =>
    let config := working_context.config
    match config.file_a, config.file_b with
    | some fa, some fb =>
      .written path
        (SavedContext.mk key_diff type_diff value_diff array_diff
          (SavedConfig.mk config.check_for_key_diffs
            config.check_for_type_diffs config.check_for_value_diffs
            config.check_for_array_diffs fa fb config.array_same_order))
    | _, _ => .panicked
  | none => .failed

/-- Embeds the clap-parsed `Arguments` struct of `src/src/lib.rs`. -/
structure Arguments where
  check_files : List String
  read_from_file : String
  write_to_file : Option String
  key_diffs : Bool
  type_diffs : Bool
  value_diffs : Bool
  array_diffs : Bool
  array_same_order : Bool

/-- Result of a process step that can abort: either a normal return or a
panic (Rust `panic!`), which terminates the process. -/
inductive PanicOr (α : Type) where
  | panicked (msg : String)
  | ret (val : α)
deriving DecidableEq

/-- Embeds `parse_args` of `src/src/lib.rs` over an abstract input
environment: `read_json_file` stands for libdtf's JSON file reader (I/O
failure or malformed content on the error side). In check mode both input
files are read and any failure is turned into a `panic!` by
`unwrap_or_else`; in read-from-file mode no document is read. The
`check_files` indexing of the source panics when fewer than two files
were given. -/
def parse_args
    (read_json_file : String → Except String (List (String × Value)))
    (args : Arguments) :
    PanicOr (Option (List (String × Value)) ×
      Option (List (String × Value)) × Config) :=
  if args.read_from_file.isEmpty then
    match args.check_files with
    | fa :: fb :: _ =>
      match read_json_file fa with
      | .error _ => .panicked ("Couldn't read file: " ++ fa)
      | .ok d1 =>
        match read_json_file fb with
        | .error _ => .panicked ("Couldn't read file: " ++ fb)
        | .ok d2 =>
          .ret (some d1, some d2,
            Config.mk args.key_diffs args.type_diffs args.value_diffs
              args.array_diffs args.read_from_file args.write_to_file
              (some fa) (some fb) args.array_same_order)
    | _ => .panicked "index out of bounds"
  else
    .ret (none, none,
      Config.mk args.key_diffs args.type_diffs args.value_diffs
        args.array_diffs args.read_from_file args.write_to_file
        none none args.array_same_order)

/-- Embeds `read_from_file` of `src/src/lib.rs` over an abstract
environment: `openFile` stands for `File::open` (`none` is an I/O
failure) and `deserialize` for `serde_json::from_reader` (its error side
is malformed content). An unopenable file is turned into a `panic!` by
`unwrap_or_else`; a deserialization failure is returned to the caller
inside the `serde_json::Result`. -/
def read_from_file (openFile : String → Option String)
    (deserialize : String → Except String SavedContext)
    (file_path : String) : PanicOr (Except String SavedContext) :=
  match openFile file_path with
  | none => .panicked ("Could not open file " ++ file_path)
  | some content => .ret (deserialize content)

/-- Embeds `get_array_table_cell_value` of `src/src/lib.rs`, arm for arm:
the data-cell text of an array-diff table row, matched on the diff's
descriptor. -/
def get_array_table_cell_value (descriptor : ArrayDiffDesc)
    (value_str : String) : String :=
  match descriptor with
  | .AHas => value_str
  | .AMisses => value_str
  | .BHas => value_str
  | .BMisses => value_str

/-- Embeds the row built by `add_array_table_rows` of `src/src/lib.rs`
for one `ArrayDiff`: the key cell and the two data cells (one under each
file-name column), each produced by `get_array_table_cell_value` on the
sanitized value. `sanitize` stands for `sanitize_json_str` (a serde-based
pretty-printer, external to the embedding). -/
def array_table_row (sanitize : String → String) (ad : ArrayDiff) :
    List String :=
  let value_str := sanitize ad.value
  [ad.key, get_array_table_cell_value ad.descriptor value_str,
    get_array_table_cell_value ad.descriptor value_str]

end Terminal

/-- C1: the field dispatcher `compare_field` is total over the pair of
`Value` kinds: each of the 36 ordered kind-pairs is routed through the
total routing table `routeOf` to exactly one handler, whose four-way
result is the dispatcher's result — no pair falls through. -/
theorem compare_field_routes_by_kind (key : String) (a b : Value)
    (ctx : WorkingContext) :
    compare_field key a b ctx = dispatchRoute (routeOf a.kind b.kind) key a b ctx := by
  cases a <;> cases b <;>
    simp [compare_field, dispatchRoute, routeOf, Value.kind,
      primitive_value_diffs]

/-- C2: for every key and every pair of values of distinct, both
non-null, kinds, `compare_field` returns exactly one `TypeDiff` carrying
both kind names, and empty key-diff, value-diff and array-diff
sequences. -/
theorem compare_field_distinct_kinds_one_type_diff (key : String)
    (a b : Value) (ctx : WorkingContext) (hne : a.kind ≠ b.kind)
    (hna : a.kind ≠ .null) (hnb : b.kind ≠ .null) :
    compare_field key a b ctx
      = ([], [⟨key, a.kind.toStr, b.kind.toStr⟩], [], []) := by
  cases a <;> cases b <;>
    simp_all [Value.kind, compare_field, handle_different_types,
      ValueType.toStr]

/-- Witness for C2 at a concrete input: a string against a number yields
exactly the one `TypeDiff` with kind names "string" and "number". -/
theorem compare_field_distinct_kinds_one_type_diff_witness :
    ((Value.string "a").kind ≠ (Value.number 1).kind ∧
        (Value.string "a").kind ≠ ValueType.null ∧
        (Value.number 1).kind ≠ ValueType.null) ∧
      compare_field "k" (.string "a") (.number 1)
          ⟨⟨"a.json"⟩, ⟨"b.json"⟩, ⟨false⟩⟩
        = ([], [⟨"k", "string", "number"⟩], [], []) := by
  refine ⟨by decide, ?_⟩
  have h := compare_field_distinct_kinds_one_type_diff "k" (.string "a")
    (.number 1) ⟨⟨"a.json"⟩, ⟨"b.json"⟩, ⟨false⟩⟩ (by decide) (by decide)
    (by decide)
  simpa [Value.kind, ValueType.toStr] using h

/-- C3: a null on one side against a primitive on the other lands in the
value category only — one `ValueDiff` whose sides are the canonical text
"null" and the canonical serialization of the concrete value, whichever
side the null is on — and the key-diff, type-diff and array-diff
sequences are empty. -/
theorem compare_field_null_primitive_value_diff (key : String)
    (ctx : WorkingContext) (s : String) (n : Int) (b : Bool) :
    (compare_field key .null (.string s) ctx
        = ([], [], [⟨key, "null", (Value.string s).toJson⟩], [])) ∧
      (compare_field key .null (.number n) ctx
        = ([], [], [⟨key, "null", (Value.number n).toJson⟩], [])) ∧
      (compare_field key .null (.bool b) ctx
        = ([], [], [⟨key, "null", (Value.bool b).toJson⟩], [])) ∧
      (compare_field key (.string s) .null ctx
        = ([], [], [⟨key, (Value.string s).toJson, "null"⟩], [])) ∧
      (compare_field key (.number n) .null ctx
        = ([], [], [⟨key, (Value.number n).toJson, "null"⟩], [])) ∧
      (compare_field key (.bool b) .null ctx
        = ([], [], [⟨key, (Value.bool b).toJson, "null"⟩], [])) := by
  refine ⟨?_, ?_, ?_, ?_, ?_, ?_⟩ <;>
    simp [compare_field, handle_one_element_null_primitives, Value.toJson]

/-- C4: a null on one side against an array on the other lands in the
array category only, the null side acting as an empty array: every
element of the non-null array is reported as present only on its own
side (an AHas/BMisses pair per element when A holds the array, a
BHas/AMisses pair when B holds it), and the key-diff, type-diff and
value-diff sequences are empty. -/
theorem compare_field_null_array_diffs (key : String)
    (ctx : WorkingContext) (xs ys : List Value) :
    (compare_field key (.array xs) .null ctx
        = ([], [], [],
          xs.flatMap fun v =>
            [⟨key, .AHas, v.toJson⟩, ⟨key, .BMisses, v.toJson⟩])) ∧
      (compare_field key .null (.array ys) ctx
        = ([], [], [],
          ys.flatMap fun v =>
            [⟨key, .BHas, v.toJson⟩, ⟨key, .AMisses, v.toJson⟩])) := by
  constructor <;> simp [compare_field, handle_one_element_null_arrays]

/-- C10: comparing `Null` against `Null` yields no diff at all: the
dispatcher returns empty sequences in all four categories. -/
theorem compare_field_null_null_empty (key : String)
    (ctx : WorkingContext) :
    compare_field key .null .null ctx = ([], [], [], []) := by
  simp [compare_field]

/-- C5: `collect_data` computes a diff category exactly when that
category's check flag is enabled in the configuration: a disabled
category is `none` (never computed), an enabled one is the corresponding
finder's result on the two documents. -/
theorem collect_data_respects_category_flags
    (d1 d2 : List (String × Value)) (ctx : Terminal.WorkingContext) :
    ((Terminal.collect_data d1 d2 ctx).1 = none ↔
        ctx.config.check_for_key_diffs = false) ∧
      (ctx.config.check_for_key_diffs = true →
        (Terminal.collect_data d1 d2 ctx).1
          = some (find_key_diffs "" d1 d2 ctx.lib_working_context)) ∧
      ((Terminal.collect_data d1 d2 ctx).2.1 = none ↔
        ctx.config.check_for_type_diffs = false) ∧
      (ctx.config.check_for_type_diffs = true →
        (Terminal.collect_data d1 d2 ctx).2.1
          = some (find_type_diffs "" d1 d2 ctx.lib_working_context)) ∧
      ((Terminal.collect_data d1 d2 ctx).2.2.1 = none ↔
        ctx.config.check_for_value_diffs = false) ∧
      (ctx.config.check_for_value_diffs = true →
        (Terminal.collect_data d1 d2 ctx).2.2.1
          = some (find_value_diffs "" d1 d2 ctx.lib_working_context)) ∧
      ((Terminal.collect_data d1 d2 ctx).2.2.2 = none ↔
        ctx.config.check_for_array_diffs = false) ∧
      (ctx.config.check_for_array_diffs = true →
        (Terminal.collect_data d1 d2 ctx).2.2.2
          = some (find_array_diffs "" d1 d2 ctx.lib_working_context)) := by
  refine ⟨?_, ?_, ?_, ?_, ?_, ?_, ?_, ?_⟩ <;>
    first
      | (cases h : ctx.config.check_for_key_diffs <;>
          simp [Terminal.collect_data, h])
      | (cases h : ctx.config.check_for_type_diffs <;>
          simp [Terminal.collect_data, h])
      | (cases h : ctx.config.check_for_value_diffs <;>
          simp [Terminal.collect_data, h])
      | (cases h : ctx.config.check_for_array_diffs <;>
          simp [Terminal.collect_data, h])

/-- Witness for C5 at a concrete input: with only the key-diff flag
enabled, the key category is computed by its finder and the type
category is `none`. -/
theorem collect_data_respects_category_flags_witness :
    ((Terminal.collect_data [] []
        ⟨⟨⟨"a.json"⟩, ⟨"b.json"⟩, ⟨false⟩⟩,
          ⟨true, false, false, false, "", none, none, none, false⟩⟩).1
      = some (find_key_diffs "" [] [] ⟨⟨"a.json"⟩, ⟨"b.json"⟩, ⟨false⟩⟩)) ∧
      ((Terminal.collect_data [] []
        ⟨⟨⟨"a.json"⟩, ⟨"b.json"⟩, ⟨false⟩⟩,
          ⟨true, false, false, false, "", none, none, none, false⟩⟩).2.1
      = none) := by
  refine ⟨?_, ?_⟩
  · exact (collect_data_respects_category_flags [] [] _).2.1 rfl
  · exact (collect_data_respects_category_flags [] [] _).2.2.1.mpr rfl

/-- C6: the persisted session built by `write_to_file` is exactly the
four diff sequences (absent categories replaced by empty sequences) plus
a `SavedConfig` copy of the run's configuration: the four category
flags, both file names and the array-ordering mode. -/
theorem write_to_file_saved_context_shape
    (kd : Option (List KeyDiff)) (td : Option (List TypeDiff))
    (vd : Option (List ValueDiff)) (ad : Option (List ArrayDiff))
    (lwc : WorkingContext) (k t v a : Bool) (rff path fa fb : String)
    (o : Bool) :
    Terminal.write_to_file kd td vd ad
        ⟨lwc, ⟨k, t, v, a, rff, some path, some fa, some fb, o⟩⟩
      = .written path
          (Terminal.SavedContext.mk (kd.getD []) (td.getD []) (vd.getD [])
            (ad.getD []) (Terminal.SavedConfig.mk k t v a fa fb o)) := by
  rfl

/-- C7: the `WorkingContext` declared in `src/libdtf/src/diff_types.rs`
carries nothing beyond the two file identities — two contexts agreeing on
the two file names are equal, so the declared type has no `config` field,
although every caller constructs it with a third `Config` argument. -/
theorem src_declared_working_context_carries_only_files
    (c1 c2 : SrcDeclaredWorkingContext) (h1 : c1.file_a = c2.file_a)
    (h2 : c1.file_b = c2.file_b) : c1 = c2 := by
  cases c1; cases c2; simp_all

/-- Witness for C7 at concrete inputs. -/
theorem src_declared_working_context_carries_only_files_witness :
    ((⟨⟨"a.json"⟩, ⟨"b.json"⟩⟩ : SrcDeclaredWorkingContext).file_a
        = (⟨⟨"a.json"⟩, ⟨"b.json"⟩⟩ : SrcDeclaredWorkingContext).file_a ∧
      (⟨⟨"a.json"⟩, ⟨"b.json"⟩⟩ : SrcDeclaredWorkingContext).file_b
        = (⟨⟨"a.json"⟩, ⟨"b.json"⟩⟩ : SrcDeclaredWorkingContext).file_b) ∧
      (⟨⟨"a.json"⟩, ⟨"b.json"⟩⟩ : SrcDeclaredWorkingContext)
        = ⟨⟨"a.json"⟩, ⟨"b.json"⟩⟩ :=
  ⟨⟨rfl, rfl⟩,
    src_declared_working_context_carries_only_files _ _ rfl rfl⟩

/-- C8 counterexample: at a concrete failing input the loading functions
abort the process instead of returning an error — `parse_args` panics
when an input file cannot be read, and `read_from_file` panics when the
saved-session file cannot be opened. -/
theorem parse_args_and_read_from_file_panic_on_io_failure :
    Terminal.parse_args (fun _ => .error "io failure")
        ⟨["a.json", "b.json"], "", none, true, false, false, false, false⟩
      = .panicked "Couldn't read file: a.json" ∧
      Terminal.read_from_file (fun _ => none) (fun _ => .error "bad")
          "saved.json"
        = .panicked "Could not open file saved.json" :=
  ⟨rfl, rfl⟩

/-- C8 as amended: `read_from_file` propagates malformed-content
(deserialization) failures to its caller inside the returned result, but
an unopenable file makes `read_from_file` panic, and a failed read of an
input file makes `parse_args` panic — I/O failures abort the process
rather than being returned. -/
theorem read_errors_propagate_io_failures_panic :
    (∀ (openFile : String → Option String)
        (de : String → Except String Terminal.SavedContext)
        (path content : String), openFile path = some content →
        Terminal.read_from_file openFile de path = .ret (de content)) ∧
      (∀ (openFile : String → Option String)
        (de : String → Except String Terminal.SavedContext)
        (path : String), openFile path = none →
        Terminal.read_from_file openFile de path
          = .panicked ("Could not open file " ++ path)) ∧
      (∀ (rjf : String → Except String (List (String × Value)))
        (args : Terminal.Arguments) (fa fb : String) (rest : List String)
        (e : String), args.check_files = fa :: fb :: rest →
        args.read_from_file = "" → rjf fa = .error e →
        Terminal.parse_args rjf args
          = .panicked ("Couldn't read file: " ++ fa)) := by
  refine ⟨?_, ?_, ?_⟩
  · intro openFile de path content h
    simp [Terminal.read_from_file, h]
  · intro openFile de path h
    simp [Terminal.read_from_file, h]
  · intro rjf args fa fb rest e hcf hrff herr
    have hemp : ("" : String).isEmpty = true := rfl
    simp [Terminal.parse_args, hcf, hrff, herr, hemp]

/-- Witness for the amended C8 at concrete inputs. -/
theorem read_errors_propagate_io_failures_panic_witness :
    Terminal.read_from_file (fun _ => some "content")
        (fun _ => .error "malformed") "saved.json"
      = .ret (.error "malformed") ∧
      Terminal.read_from_file (fun _ => none) (fun _ => .error "malformed")
          "saved.json"
        = .panicked "Could not open file saved.json" ∧
      Terminal.parse_args (fun _ => .error "io failure")
          ⟨["a.json", "b.json"], "", none, true, false, false, false, false⟩
        = .panicked "Couldn't read file: a.json" :=
  ⟨read_errors_propagate_io_failures_panic.1 _ _ "saved.json" "content" rfl,
    read_errors_propagate_io_failures_panic.2.1 _ _ "saved.json" rfl,
    read_errors_propagate_io_failures_panic.2.2 _ _ "a.json" "b.json" []
      "io failure" rfl rfl rfl⟩

/-- C9: in the rendered array-diff table the cell value ignores the
descriptor — `get_array_table_cell_value` returns the sanitized value in
all four match arms — so each row carries the same text in both data
columns and no side indicator. -/
theorem array_table_row_cells_identical :
    (∀ (d : ArrayDiffDesc) (v : String),
        Terminal.get_array_table_cell_value d v = v) ∧
      ∀ (sanitize : String → String) (ad : ArrayDiff),
        Terminal.array_table_row sanitize ad
          = [ad.key, sanitize ad.value, sanitize ad.value] := by
  constructor
  · intro d v
    cases d <;> rfl
  · intro sanitize ad
    cases hd : ad.descriptor <;>
      simp [Terminal.array_table_row, Terminal.get_array_table_cell_value, hd]

end Dtf
